import Mathlib

/-!
Shallow embedding of the Debt-Management-System ledger core.

Sources embedded here:
* `src/utils/decimalMath.js` (decimal.js wrapper) — money is modelled as `ℚ`;
  decimal.js add/subtract/compare on the magnitudes used by the ledger are
  exact, so rational arithmetic is a faithful model.  Note decimal.js
  `isPositive` tests the sign field, and (positive) zero has positive sign,
  so `isPositive 0 = true`.
* `src/models/Debt.js` — `updateStatus`, `calculateAgingBucket`.
* `src/models/Customer.js` — `canAcceptDebt`, `incrementVersion`.
* `src/models/Payment.js` — schema (no `version` path) and the
  `pre('validate')` sum-tolerance hook.
* `src/services/paymentService.js` — `createPayment` inside a MongoDB
  transaction (abort discards all partial writes).
* `src/services/debtService.js` — `createDebt`, `cancelDebt`.
* `src/services/syncService.js` — `pushChanges` with server-wins conflicts.
* `src/api/middlewares/idempotency.js` + `src/config/constants.js` —
  Redis-backed idempotency gate, TTL 86400 seconds.

Mongo `ObjectId`s are modelled as `Nat`; JS `Date`s as `Int` milliseconds
since the epoch.  `findOne` is `List.find?` (first match).  The audit log,
logging, and population of references are outside the claims and omitted.
Lean naming notes: the debt statuses `open` and `partial` from
`constants.js` are rendered `opened` and `partly` (both source words are
reserved in this development).
-/

set_option maxRecDepth 10000

/-- Money values, exact rationals (decimal.js is exact on ledger ops). -/
abbrev Money := ℚ

/-- Decidable equality of `Except` results, used to evaluate the embedded
operations on concrete inputs. -/
instance instDecidableEqExcept {ε α : Type} [DecidableEq ε] [DecidableEq α] :
    DecidableEq (Except ε α) := fun x y =>
  match x, y with
  | Except.ok a, Except.ok b =>
      if h : a = b then Decidable.isTrue (by rw [h])
      else Decidable.isFalse (fun hc => h (by cases hc; rfl))
  | Except.error a, Except.error b =>
      if h : a = b then Decidable.isTrue (by rw [h])
      else Decidable.isFalse (fun hc => h (by cases hc; rfl))
  | Except.ok _, Except.error _ => Decidable.isFalse (fun hc => Except.noConfusion hc)
  | Except.error _, Except.ok _ => Decidable.isFalse (fun hc => Except.noConfusion hc)

/-- Status enum from `config/constants.js` (`DEBT_STATUS`). -/
inductive DebtStatus
  | opened     -- 'open'
  | partly     -- source string is the other in-between status
  | paid       -- 'paid'
  | cancelled  -- 'cancelled'
deriving DecidableEq, Repr

/-- Aging buckets from `config/constants.js` (`AGING_BUCKETS`). -/
inductive AgingBucket
  | current     -- 'current'
  | days0to30   -- '0-30'
  | days31to60  -- '31-60'
  | days61to90  -- '61-90'
  | days90plus  -- '90+'
deriving DecidableEq, Repr

/-! decimalMath.js operations on the rational money model. -/

/-- decimalMath.add. -/
def decAdd (a b : Money) : Money := a + b

/-- decimalMath.subtract. -/
def decSubtract (a b : Money) : Money := a - b

/-- decimalMath.isGreaterThan. -/
def decIsGreaterThan (a b : Money) : Bool := decide (b < a)

/-- decimalMath.isPositive: decimal.js sign test, true for zero. -/
def decIsPositive (a : Money) : Bool := decide (0 ≤ a)

/-- decimalMath.isZero. -/
def decIsZero (a : Money) : Bool := decide (a = 0)

/-- decimalMath.equals. -/
def decEquals (a b : Money) : Bool := decide (a = b)

/-! Ledger entities (models/Customer.js, models/Debt.js, models/Payment.js). -/

/-- Customer document (models/Customer.js); `version` is the explicit
optimistic-locking counter of the schema. -/
structure Customer where
  id : Nat
  companyId : Nat
  name : String
  creditLimit : Money
  debtBalance : Money
  creditBalance : Money
  lastTransactionAt : Option Int
  version : Nat
  isActive : Bool
  notes : Option String
deriving DecidableEq, Repr

/-- Line item of a debt (models/Debt.js `debtItemSchema`). -/
structure DebtItem where
  description : String
  quantity : ℚ
  price : Money
  total : Money
deriving DecidableEq, Repr

/-- Debt document (models/Debt.js).  The schema has no `version` path. -/
structure Debt where
  id : Nat
  companyId : Nat
  customerId : Nat
  reference : String
  totalAmount : Money
  outstandingAmount : Money
  status : DebtStatus
  agingBucket : AgingBucket
  dueAt : Int
  items : List DebtItem
  notes : Option String
deriving DecidableEq, Repr

/-- Entry of `Payment.appliedToDebts` (models/Payment.js `appliedDebtSchema`). -/
structure AppliedDebt where
  debtId : Nat
  amount : Money
deriving DecidableEq, Repr

/-- Payment document (models/Payment.js).  The schema has no `version` path. -/
structure Payment where
  id : Nat
  companyId : Nat
  customerId : Nat
  amount : Money
  method : String
  appliedToDebts : List AppliedDebt
  addedToCreditBalance : Money
  idempotencyKey : Option String
  paidAt : Int
  createdBy : Nat
  notes : Option String
deriving DecidableEq, Repr

/-- customerSchema.methods.canAcceptDebt (Customer.js):
`debtBalance + amount ≤ creditLimit`. -/
def Customer.canAcceptDebt (c : Customer) (amount : Money) : Bool :=
  decide (c.debtBalance + amount ≤ c.creditLimit)

/-- customerSchema.methods.incrementVersion (Customer.js). -/
def Customer.incrementVersion (c : Customer) : Customer :=
  { c with version := c.version + 1 }

/-- debtSchema.methods.updateStatus (Debt.js lines 131-149): cancelled is
kept unchanged; otherwise zero outstanding is paid, outstanding below total
is the in-between status, and anything else is opened. -/
def Debt.updateStatus (d : Debt) : Debt :=
  if d.status = DebtStatus.cancelled then d
  else if decIsZero d.outstandingAmount then { d with status := DebtStatus.paid }
  else if decide (d.outstandingAmount < d.totalAmount) then { d with status := DebtStatus.partly }
  else { d with status := DebtStatus.opened }

/-- Milliseconds per day (`1000 * 60 * 60 * 24` in Debt.js). -/
def msPerDay : Int := 86400000

/-- debtSchema.methods.calculateAgingBucket (Debt.js lines 152-172), with the
clock `now` passed explicitly (the source reads `new Date()`).
`Math.floor` of the real division is floor division on integers. -/
def calculateAgingBucket (status : DebtStatus) (dueAt now : Int) : AgingBucket :=
  if status = DebtStatus.paid ∨ status = DebtStatus.cancelled then
    AgingBucket.current
  else
    let daysOverdue := Int.fdiv (now - dueAt) msPerDay
    if daysOverdue < 0 then AgingBucket.current
    else if daysOverdue ≤ 30 then AgingBucket.days0to30
    else if daysOverdue ≤ 60 then AgingBucket.days31to60
    else if daysOverdue ≤ 90 then AgingBucket.days61to90
    else AgingBucket.days90plus

/-- paymentSchema pre-validate hook (Payment.js lines 106-129): when some
amounts are applied, the applied sum plus the credit residue must match the
payment amount within 0.01. -/
def paymentValidateHook (p : Payment) : Bool :=
  if p.appliedToDebts ≠ [] then
    let totalApplied := p.appliedToDebts.foldl (fun acc a => acc + a.amount) 0
    decide (|totalApplied + p.addedToCreditBalance - p.amount| ≤ 1 / 100)
  else
    true

/-- debtSchema pre-validate hook (Debt.js lines 118-128): recompute each
item total as price times quantity. -/
def computeItemTotals (items : List DebtItem) : List DebtItem :=
  items.map (fun item => { item with total := item.price * item.quantity })

example : Debt.updateStatus
    { id := 1, companyId := 1, customerId := 1, reference := "r",
      totalAmount := 100, outstandingAmount := 0, status := DebtStatus.opened,
      agingBucket := AgingBucket.current, dueAt := 0, items := [], notes := none } =
    { id := 1, companyId := 1, customerId := 1, reference := "r",
      totalAmount := 100, outstandingAmount := 0, status := DebtStatus.paid,
      agingBucket := AgingBucket.current, dueAt := 0, items := [], notes := none } := by
  decide

example : calculateAgingBucket DebtStatus.opened 0 (45 * msPerDay) = AgingBucket.days31to60 := by
  decide

/-! Persistent store and the service layer. -/

/-- Error taxonomy from `utils/errorHandler.js`; the payload is the message. -/
inductive LedgerError
  | validationError (msg : String)           -- 400
  | notFoundError (resource : String)        -- 404
  | conflictError (msg : String)             -- 409
  | unprocessableEntityError (msg : String)  -- 422
  | internalError (msg : String)             -- 500 (unexpected runtime failure)
deriving DecidableEq, Repr

/-- Collections of the store that the ledger services touch.  The audit-log
collection is write-only in every embedded operation and is omitted. -/
structure LedgerState where
  customers : List Customer
  debts : List Debt
  payments : List Payment
deriving DecidableEq, Repr

/-- Customer.findOne with filter on `_id` and `companyId`. -/
def findCustomer (s : LedgerState) (customerId companyId : Nat) : Option Customer :=
  s.customers.find? (fun c => c.id == customerId && c.companyId == companyId)

/-- Customer.findById (used by cancelDebt, which filters only by `_id`). -/
def findCustomerById (s : LedgerState) (customerId : Nat) : Option Customer :=
  s.customers.find? (fun c => c.id == customerId)

/-- Debt.findOne with filter on `_id`, `companyId` and `customerId`
(paymentService.js lines 88-92). -/
def findDebt (s : LedgerState) (debtId companyId customerId : Nat) : Option Debt :=
  s.debts.find? (fun d => d.id == debtId && d.companyId == companyId && d.customerId == customerId)

/-- Debt.findOne with filter on `_id` and `companyId` (debtService.cancelDebt). -/
def findDebtById (s : LedgerState) (debtId companyId : Nat) : Option Debt :=
  s.debts.find? (fun d => d.id == debtId && d.companyId == companyId)

/-- Payment.findOne with filter on `_id` and `companyId`. -/
def findPayment (s : LedgerState) (paymentId companyId : Nat) : Option Payment :=
  s.payments.find? (fun p => p.id == paymentId && p.companyId == companyId)

/-- Mongoose `document.save()` on an existing customer: the stored document
with the same `_id` is replaced. -/
def saveCustomer (s : LedgerState) (c : Customer) : LedgerState :=
  { s with customers := s.customers.map (fun x => if x.id == c.id then c else x) }

/-- document.save() on an existing debt. -/
def saveDebt (s : LedgerState) (d : Debt) : LedgerState :=
  { s with debts := s.debts.map (fun x => if x.id == d.id then d else x) }

/-- document.save() on an existing payment. -/
def savePayment (s : LedgerState) (p : Payment) : LedgerState :=
  { s with payments := s.payments.map (fun x => if x.id == p.id then p else x) }

/-- Request body of createPayment (paymentService.js destructuring). -/
structure PaymentData where
  amount : Money
  method : String
  appliedToDebts : List AppliedDebt
  paidAt : Option Int
  notes : Option String
  idempotencyKey : Option String
deriving DecidableEq, Repr

/-- Loop of paymentService.createPayment lines 78-125: process the applied
debts in input order against the in-transaction state, accumulating the
applied total.  Every error aborts the whole transaction. -/
def applyDebtsLoop (companyId customerId : Nat) (apps : List AppliedDebt)
    (s : LedgerState) (totalApplied : Money) :
    Except LedgerError (LedgerState × Money) :=
  match apps with
  | [] => Except.ok (s, totalApplied)
  | app :: rest =>
      if ¬ decIsPositive app.amount then
        Except.error (LedgerError.validationError "Applied amount must be greater than zero")
      else
        match findDebt s app.debtId companyId customerId with
        | none => Except.error (LedgerError.notFoundError "Debt")
        | some debt =>
            if decIsGreaterThan app.amount debt.outstandingAmount then
              Except.error (LedgerError.validationError "Payment amount exceeds debt outstanding")
            else
              let newOutstanding := decSubtract debt.outstandingAmount app.amount
              let debt' := Debt.updateStatus { debt with outstandingAmount := newOutstanding }
              applyDebtsLoop companyId customerId rest (saveDebt s debt')
                (decAdd totalApplied app.amount)

/-- Uniqueness constraint of the sparse unique index on
`Payment.idempotencyKey` (Payment.js line 87): inserting a payment whose key
duplicates a stored one fails. -/
def hasDuplicateIdempotencyKey (s : LedgerState) (p : Payment) : Bool :=
  match p.idempotencyKey with
  | none => false
  | some k => s.payments.any (fun q => q.idempotencyKey == some k)

/-- paymentService.createPayment (paymentService.js lines 32-214), as the body
of the MongoDB transaction: `Except.ok` is the committed state plus the new
payment, `Except.error` is the error thrown before the abort. -/
def createPayment (companyId customerId : Nat) (pd : PaymentData) (userId : Nat)
    (now : Int) (newId : Nat) (s : LedgerState) :
    Except LedgerError (LedgerState × Payment) :=
  if ¬ decIsPositive pd.amount then
    Except.error (LedgerError.validationError "Payment amount must be greater than zero")
  else
    match findCustomer s customerId companyId with
    | none => Except.error (LedgerError.notFoundError "Customer")
    | some customer =>
        match applyDebtsLoop companyId customerId pd.appliedToDebts s 0 with
        | Except.error e => Except.error e
        | Except.ok (s1, totalApplied) =>
            if decIsGreaterThan totalApplied pd.amount then
              Except.error (LedgerError.validationError
                "Total amount applied to debts exceeds payment amount")
            else
              let addedToCreditBalance := decSubtract pd.amount totalApplied
              let customer' := { customer with
                debtBalance := decSubtract customer.debtBalance totalApplied,
                creditBalance := decAdd customer.creditBalance addedToCreditBalance,
                lastTransactionAt := some (pd.paidAt.getD now),
                version := customer.version + 1 }
              let s2 := saveCustomer s1 customer'
              let payment : Payment := {
                id := newId, companyId := companyId, customerId := customerId,
                amount := pd.amount, method := pd.method,
                appliedToDebts := pd.appliedToDebts.map
                  (fun a => { debtId := a.debtId, amount := a.amount }),
                addedToCreditBalance := addedToCreditBalance,
                idempotencyKey := pd.idempotencyKey,
                paidAt := pd.paidAt.getD now,
                createdBy := userId, notes := pd.notes }
              if ¬ paymentValidateHook payment then
                Except.error (LedgerError.validationError
                  "Sum of applied amounts and credit balance must equal payment amount")
              else if hasDuplicateIdempotencyKey s2 payment then
                Except.error (LedgerError.conflictError "Duplicate idempotency key")
              else
                Except.ok ({ s2 with payments := s2.payments ++ [payment] }, payment)

/-- Transaction wrapper: on any error `session.abortTransaction()` discards
every partial write, so the caller observes the pre-call state. -/
def runCreatePayment (companyId customerId : Nat) (pd : PaymentData) (userId : Nat)
    (now : Int) (newId : Nat) (s : LedgerState) :
    LedgerState × Except LedgerError Payment :=
  match createPayment companyId customerId pd userId now newId s with
  | Except.ok (s', p) => (s', Except.ok p)
  | Except.error e => (s, Except.error e)

/-- Request body of createDebt (debtService.js destructuring).  The
`customerId` always present in this total model corresponds to the truthy
ObjectId of the source. -/
structure DebtData where
  customerId : Nat
  reference : String
  totalAmount : Money
  dueAt : Int
  items : List DebtItem
  notes : Option String
deriving DecidableEq, Repr

/-- Truthiness guard of debtService.createDebt line 233
(`!customerId || !reference || !totalAmount || !dueAt || items.length === 0`):
the model keeps the checks on the fields whose JS falsy values are
representable here. -/
def debtDataValid (dd : DebtData) : Bool :=
  ¬ (dd.reference == "" || decIsZero dd.totalAmount || dd.dueAt == 0 || dd.items.isEmpty)

/-- debtService.createDebt (debtService.js lines 217-314), transaction body. -/
def createDebt (companyId : Nat) (dd : DebtData) (userId : Nat)
    (now : Int) (newId : Nat) (s : LedgerState) :
    Except LedgerError (LedgerState × Debt) :=
  if ¬ debtDataValid dd then
    Except.error (LedgerError.validationError "Missing required fields for debt creation")
  else
    match findCustomer s dd.customerId companyId with
    | none => Except.error (LedgerError.notFoundError "Customer")
    | some customer =>
        if ¬ customer.canAcceptDebt dd.totalAmount then
          Except.error (LedgerError.unprocessableEntityError "Customer credit limit exceeded")
        else
          let debt0 : Debt := {
            id := newId, companyId := companyId, customerId := dd.customerId,
            reference := dd.reference,
            totalAmount := dd.totalAmount, outstandingAmount := dd.totalAmount,
            status := DebtStatus.opened, agingBucket := AgingBucket.current,
            dueAt := dd.dueAt, items := dd.items, notes := dd.notes }
          let debt1 := { debt0 with
            agingBucket := calculateAgingBucket debt0.status debt0.dueAt now }
          let debt := { debt1 with items := computeItemTotals debt1.items }
          let s1 := { s with debts := s.debts ++ [debt] }
          let customer' := { customer with
            debtBalance := decAdd customer.debtBalance dd.totalAmount,
            lastTransactionAt := some now,
            version := customer.version + 1 }
          Except.ok (saveCustomer s1 customer', debt)

/-- Transaction wrapper for createDebt (abort on error keeps the pre-state). -/
def runCreateDebt (companyId : Nat) (dd : DebtData) (userId : Nat)
    (now : Int) (newId : Nat) (s : LedgerState) :
    LedgerState × Except LedgerError Debt :=
  match createDebt companyId dd userId now newId s with
  | Except.ok (s', d) => (s', Except.ok d)
  | Except.error e => (s, Except.error e)

/-- debtService.cancelDebt (debtService.js lines 406-466), transaction body.
The guard compares outstanding with total only; the status is not consulted.
A missing owner customer would crash the source on a null dereference, which
the transaction turns into an aborted error. -/
def cancelDebt (companyId debtId userId : Nat) (s : LedgerState) :
    Except LedgerError (LedgerState × Debt) :=
  match findDebtById s debtId companyId with
  | none => Except.error (LedgerError.notFoundError "Debt")
  | some debt =>
      if ¬ decEquals debt.outstandingAmount debt.totalAmount then
        Except.error (LedgerError.unprocessableEntityError
          "Cannot cancel a debt that has been partially or fully paid")
      else
        let debt' := { debt with status := DebtStatus.cancelled }
        let s1 := saveDebt s debt'
        match findCustomerById s1 debt.customerId with
        | none => Except.error (LedgerError.internalError "customer is null")
        | some customer =>
            let customer' := { customer with
              debtBalance := decSubtract customer.debtBalance debt.totalAmount,
              version := customer.version + 1 }
            Except.ok (saveCustomer s1 customer', debt')

/-- Transaction wrapper for cancelDebt. -/
def runCancelDebt (companyId debtId userId : Nat) (s : LedgerState) :
    LedgerState × Except LedgerError Debt :=
  match cancelDebt companyId debtId userId s with
  | Except.ok (s', d) => (s', Except.ok d)
  | Except.error e => (s, Except.error e)

/-! Sync service (syncService.js `pushChanges`). -/

/-- Changeset `data` payload, modelled over a representative subset of the
mutable schema fields of the three entities; `Object.assign` copies each
present field onto the document and mongoose strict mode drops keys that are
not schema paths of the target model. -/
structure ChangeData where
  name : Option String
  creditLimit : Option Money
  debtBalance : Option Money
  outstandingAmount : Option Money
  amount : Option Money
  notes : Option String
deriving DecidableEq, Repr

/-- Changeset pushed by a client (`{entity, entityId, version, data}`). -/
structure Changeset where
  entity : String
  entityId : Nat
  version : Nat
  data : ChangeData
deriving DecidableEq, Repr

/-- Server document found by the per-entity lookup. -/
inductive ServerDoc
  | customerDoc (c : Customer)
  | debtDoc (d : Debt)
  | paymentDoc (p : Payment)
deriving DecidableEq, Repr

/-- Reading `document.version`: only the Customer schema declares a `version`
path, so the other documents give `undefined`. -/
def ServerDoc.version : ServerDoc → Option Nat
  | ServerDoc.customerDoc c => some c.version
  | ServerDoc.debtDoc _ => none
  | ServerDoc.paymentDoc _ => none

/-- Entity switch plus `Model.findOne({_id: entityId, companyId})`
(syncService.js lines 32-48); `none` when the document is absent. -/
def findEntityDoc (s : LedgerState) (entity : String) (entityId companyId : Nat) :
    Option ServerDoc :=
  if entity == "Customer" then (findCustomer s entityId companyId).map ServerDoc.customerDoc
  else if entity == "Debt" then (findDebtById s entityId companyId).map ServerDoc.debtDoc
  else if entity == "Payment" then (findPayment s entityId companyId).map ServerDoc.paymentDoc
  else none

/-- Object.assign of the changeset data onto a Customer document. -/
def assignCustomer (c : Customer) (d : ChangeData) : Customer :=
  { c with
    name := d.name.getD c.name,
    creditLimit := d.creditLimit.getD c.creditLimit,
    debtBalance := d.debtBalance.getD c.debtBalance,
    notes := match d.notes with | some n => some n | none => c.notes }

/-- Object.assign of the changeset data onto a Debt document. -/
def assignDebt (debt : Debt) (d : ChangeData) : Debt :=
  { debt with
    outstandingAmount := d.outstandingAmount.getD debt.outstandingAmount,
    notes := match d.notes with | some n => some n | none => debt.notes }

/-- Object.assign of the changeset data onto a Payment document. -/
def assignPayment (p : Payment) (d : ChangeData) : Payment :=
  { p with
    amount := d.amount.getD p.amount,
    notes := match d.notes with | some n => some n | none => p.notes }

/-- Entry of the `applied` result list. -/
structure AppliedResult where
  entityId : Nat
  entity : String
  newVersion : Option Nat
deriving DecidableEq, Repr

/-- Entry of the `conflicts` result list; the three source shapes (not found,
version mismatch, caught error) share this record, absent keys being `none`
and `isError` marking the caught-error shape. -/
structure ConflictResult where
  entityId : Nat
  entity : String
  reason : String
  serverVersion : Option Nat
  clientVersion : Option Nat
  serverData : Option ServerDoc
  isError : Bool
deriving DecidableEq, Repr

/-- Outcome of one changeset. -/
inductive PushOutcome
  | applied (a : AppliedResult)
  | conflicted (c : ConflictResult)
deriving DecidableEq, Repr

/-- Version-mismatch conflict entry (syncService.js lines 62-75). -/
def mismatchConflict (cs : Changeset) (v : Nat) (doc : ServerDoc) : ConflictResult :=
  { entityId := cs.entityId, entity := cs.entity, reason := "Version mismatch",
    serverVersion := some v, clientVersion := some cs.version,
    serverData := some doc, isError := false }

/-- Save of the assigned document inside pushChanges, with
`incrementVersion()` when the document supports it (only Customer does) and
the Payment pre-validate hook on save.  Gives the stored outcome or the
caught error message. -/
def applyChangeset (s : LedgerState) (cs : Changeset) (doc : ServerDoc) :
    LedgerState × PushOutcome :=
  match doc with
  | ServerDoc.customerDoc c =>
      let c' := Customer.incrementVersion (assignCustomer c cs.data)
      (saveCustomer s c',
       PushOutcome.applied { entityId := cs.entityId, entity := cs.entity,
                             newVersion := some c'.version })
  | ServerDoc.debtDoc d =>
      let d' := assignDebt d cs.data
      (saveDebt s d',
       PushOutcome.applied { entityId := cs.entityId, entity := cs.entity,
                             newVersion := none })
  | ServerDoc.paymentDoc p =>
      let p' := assignPayment p cs.data
      if ¬ paymentValidateHook p' then
        (s, PushOutcome.conflicted
          { entityId := cs.entityId, entity := cs.entity,
            reason := "Sum of applied amounts and credit balance must equal payment amount",
            serverVersion := none, clientVersion := none,
            serverData := none, isError := true })
      else
        (savePayment s p',
         PushOutcome.applied { entityId := cs.entityId, entity := cs.entity,
                               newVersion := none })

/-- One iteration of the pushChanges loop (syncService.js lines 28-101),
including the per-changeset try/catch that turns thrown errors into
conflict entries and never aborts the batch. -/
def pushOne (companyId : Nat) (cs : Changeset) (s : LedgerState) :
    LedgerState × PushOutcome :=
  if cs.entity == "Customer" || cs.entity == "Debt" || cs.entity == "Payment" then
    match findEntityDoc s cs.entity cs.entityId companyId with
    | none =>
        (s, PushOutcome.conflicted
          { entityId := cs.entityId, entity := cs.entity,
            reason := "Document not found on server",
            serverVersion := none, clientVersion := some cs.version,
            serverData := none, isError := false })
    | some doc =>
        match doc.version with
        | some v =>
            if v ≠ cs.version then (s, PushOutcome.conflicted (mismatchConflict cs v doc))
            else applyChangeset s cs doc
        | none => applyChangeset s cs doc
  else
    (s, PushOutcome.conflicted
      { entityId := cs.entityId, entity := cs.entity,
        reason := "Unknown entity type",
        serverVersion := none, clientVersion := none,
        serverData := none, isError := true })

/-- Sequential processing of the whole batch, keeping outcomes in order. -/
def pushChangesLoop (companyId : Nat) (css : List Changeset) (s : LedgerState) :
    LedgerState × List PushOutcome :=
  match css with
  | [] => (s, [])
  | cs :: rest =>
      let step := pushOne companyId cs s
      let tail := pushChangesLoop companyId rest step.fst
      (tail.fst, step.snd :: tail.snd)

/-- Final `{applied, conflicts}` shape of the response. -/
structure PushResults where
  applied : List AppliedResult
  conflicts : List ConflictResult
deriving DecidableEq, Repr

/-- Partition of the ordered outcomes into the two result arrays. -/
def collectOutcomes (os : List PushOutcome) : PushResults :=
  match os with
  | [] => { applied := [], conflicts := [] }
  | PushOutcome.applied a :: rest =>
      let r := collectOutcomes rest
      { r with applied := a :: r.applied }
  | PushOutcome.conflicted c :: rest =>
      let r := collectOutcomes rest
      { r with conflicts := c :: r.conflicts }

/-- syncService.pushChanges (lines 17-110). -/
def pushChanges (companyId : Nat) (css : List Changeset) (s : LedgerState) :
    Except LedgerError (LedgerState × PushResults) :=
  if css.isEmpty then
    Except.error (LedgerError.validationError "Changesets array is required")
  else
    let r := pushChangesLoop companyId css s
    Except.ok (r.fst, collectOutcomes r.snd)

/-! Idempotency gate (api/middlewares/idempotency.js, config/constants.js). -/

/-- Hexadecimal digit of the UUID regex (case-insensitive flag). -/
def isHexDigit (c : Char) : Bool :=
  c.isDigit || ('a' ≤ c && c ≤ 'f') || ('A' ≤ c && c ≤ 'F')

/-- Hyphen-separated hex groups of the UUID shape. -/
def uuidGroups (groups : List Nat) (cs : List Char) : Bool :=
  match groups with
  | [] => cs.isEmpty
  | [g] => cs.length == g && cs.all isHexDigit
  | g :: gs =>
      (cs.take g).length == g && (cs.take g).all isHexDigit &&
      (match cs.drop g with
       | '-' :: rest => uuidGroups gs rest
       | _ => false)

/-- isValidIdempotencyKey (idempotency.js lines 14-17): the 8-4-4-4-12 UUID
regex. -/
def isValidIdempotencyKey (s : String) : Bool :=
  uuidGroups [8, 4, 4, 4, 12] s.toList

/-- Transport response produced behind the idempotency gate: the controller
serializes either the created payment (status 201) or the error mapped to
its HTTP status by utils/errorHandler.js. -/
inductive RespBody
  | successBody (payment : Payment)
  | errorBody (e : LedgerError)
deriving DecidableEq, Repr

/-- Status plus body, the pair the middleware caches. -/
structure HttpResponse where
  status : Nat
  body : RespBody
deriving DecidableEq, Repr

/-- Mapping of LedgerError to its HTTP status code (utils/errorHandler.js). -/
def errorStatus : LedgerError → Nat
  | LedgerError.validationError _ => 400
  | LedgerError.notFoundError _ => 404
  | LedgerError.conflictError _ => 409
  | LedgerError.unprocessableEntityError _ => 422
  | LedgerError.internalError _ => 500

/-- Error response assembled by the error-handler middleware. -/
def errorResponse (e : LedgerError) : HttpResponse :=
  { status := errorStatus e, body := RespBody.errorBody e }

/-- Cached `(status, body)` with its Redis expiry instant (`setex`).  Times
are milliseconds; the 86400-second TTL of `IDEMPOTENCY_TTL_SECONDS` is
86400000 milliseconds. -/
structure CacheEntry where
  expiresAt : Int
  resp : HttpResponse
deriving DecidableEq, Repr

/-- TTL of a cached idempotency entry in milliseconds. -/
def idempotencyTtlMs : Int := 86400 * 1000

/-- redis.get: a key answers only before its expiry instant. -/
def cacheGet (cache : List (String × CacheEntry)) (key : String) (now : Int) :
    Option CacheEntry :=
  match cache.find? (fun kv => kv.fst == key) with
  | some kv => if now < kv.snd.expiresAt then some kv.snd else none
  | none => none

/-- redis.setex: store under the key, replacing any previous entry. -/
def cacheSet (cache : List (String × CacheEntry)) (key : String) (e : CacheEntry) :
    List (String × CacheEntry) :=
  (key, e) :: cache.filter (fun kv => kv.fst != key)

/-- Application state seen by the payment route: the store, the Redis
idempotency cache, and the ObjectId generator for the next payment. -/
structure AppState where
  ledger : LedgerState
  cache : List (String × CacheEntry)
  nextPaymentId : Nat
deriving DecidableEq, Repr

/-- Redis key of an idempotency key (`IDEMPOTENCY_KEY_PREFIX` + key). -/
def redisKeyOf (key : String) : String := "idempotency:" ++ key

/-- POST /payments behind the idempotency middleware (idempotency.js lines
24-84 composed with paymentController.createPayment): a cached hit replays
the stored response with no mutation; a miss runs the service inside its
transaction, answers 201 or the mapped error, and caches only 2xx
responses. -/
def handleCreatePayment (now : Int) (key : String)
    (companyId customerId userId : Nat) (pd : PaymentData) (st : AppState) :
    AppState × HttpResponse :=
  if ¬ isValidIdempotencyKey key then
    (st, errorResponse (LedgerError.validationError "Idempotency-Key must be a valid UUID"))
  else
    match cacheGet st.cache (redisKeyOf key) now with
    | some e => (st, e.resp)
    | none =>
        let pd' := { pd with idempotencyKey := some key }
        let run := runCreatePayment companyId customerId pd' userId now st.nextPaymentId st.ledger
        let resp := match run.snd with
          | Except.ok p => { status := 201, body := RespBody.successBody p }
          | Except.error e => errorResponse e
        let cache' :=
          if 200 ≤ resp.status ∧ resp.status < 300 then
            cacheSet st.cache (redisKeyOf key)
              { expiresAt := now + idempotencyTtlMs, resp := resp }
          else st.cache
        ({ ledger := run.fst, cache := cache', nextPaymentId := st.nextPaymentId + 1 }, resp)

/-! Concrete fixtures used by the witnesses and counterexamples. -/

/-- Customer fixture: active, credit limit 1000, debt balance 500. -/
def exCustomer : Customer :=
  { id := 1, companyId := 1, name := "Acme", creditLimit := 1000,
    debtBalance := 500, creditBalance := 0, lastTransactionAt := none,
    version := 3, isActive := true, notes := none }

/-- Open debt fixture with outstanding 500. -/
def exDebt : Debt :=
  { id := 10, companyId := 1, customerId := 1, reference := "INV-1",
    totalAmount := 500, outstandingAmount := 500, status := DebtStatus.opened,
    agingBucket := AgingBucket.current, dueAt := 86400000,
    items := [{ description := "w", quantity := 1, price := 500, total := 500 }],
    notes := none }

/-- Base state: one customer owning one open debt, no payments. -/
def exState : LedgerState :=
  { customers := [exCustomer], debts := [exDebt], payments := [] }

/-- Payment request over-applying 600 against outstanding 500. -/
def exOverPayment : PaymentData :=
  { amount := 600, method := "cash",
    appliedToDebts := [{ debtId := 10, amount := 600 }],
    paidAt := none, notes := none, idempotencyKey := none }

/-- Payment request applying exactly 300 of a 500 payment. -/
def exSplitPayment : PaymentData :=
  { amount := 500, method := "cash",
    appliedToDebts := [{ debtId := 10, amount := 300 }],
    paidAt := some 7, notes := none, idempotencyKey := none }

example :
    createPayment 1 1 exOverPayment 5 0 77 exState =
      Except.error (LedgerError.validationError "Payment amount exceeds debt outstanding") := by
  with_unfolding_all decide

example :
    (runCreatePayment 1 1 exOverPayment 5 0 77 exState).fst = exState := by
  with_unfolding_all rfl

example :
    ((createPayment 1 1 exSplitPayment 5 0 77 exState).toOption.map
      (fun r => r.snd.addedToCreditBalance)) = some 200 := by
  with_unfolding_all decide

/-! Claim theorems. -/

/-- C6: for a non-cancelled debt with `0 ≤ outstandingAmount ≤ totalAmount`,
the status recomputation yields paid at zero outstanding, the in-between
status strictly between zero and total, and open at outstanding equal to
total; a cancelled debt is never changed by the recomputation. -/
theorem updateStatus_state_machine (d : Debt) :
    (d.status = DebtStatus.cancelled → d.updateStatus = d) ∧
    (d.status ≠ DebtStatus.cancelled →
      0 ≤ d.outstandingAmount → d.outstandingAmount ≤ d.totalAmount →
      ((d.outstandingAmount = 0 → d.updateStatus.status = DebtStatus.paid) ∧
       (0 < d.outstandingAmount → d.outstandingAmount < d.totalAmount →
         d.updateStatus.status = DebtStatus.partly) ∧
       (0 < d.outstandingAmount → d.outstandingAmount = d.totalAmount →
         d.updateStatus.status = DebtStatus.opened))) := by
  unfold Debt.updateStatus
  constructor
  · intro h
    simp [h]
  · intro hnc _ _
    refine ⟨?_, ?_, ?_⟩
    · intro hz
      simp [hnc, decIsZero, hz]
    · intro hpos hlt
      have hz : ¬ d.outstandingAmount = 0 := ne_of_gt hpos
      simp [hnc, decIsZero, hz, hlt]
    · intro hpos heq
      have hz : ¬ d.outstandingAmount = 0 := ne_of_gt hpos
      have hnlt : ¬ d.outstandingAmount < d.totalAmount := by
        rw [heq]
        exact lt_irrefl _
      simp [hnc, decIsZero, hz, hnlt]

/-- C6 witness: the open 500-of-500 fixture debt stays open under the
recomputation (instantiating the equal-to-total branch). -/
theorem updateStatus_state_machine_witness :
    exDebt.status ≠ DebtStatus.cancelled ∧ exDebt.updateStatus.status = DebtStatus.opened :=
  ⟨by decide,
   ((updateStatus_state_machine exDebt).2 (by decide) (by decide) (by decide)).2.2
     (by decide) (by decide)⟩

/-- C7: the aging classification is a function of (now, dueAt, status) alone:
paid and cancelled debts classify current, and otherwise the floor of the
overdue day count selects current below zero, then the 0-30, 31-60 and 61-90
buckets, and 90+ strictly above 90; an open debt due 45 days before now
classifies into the 31-60 bucket. -/
theorem calculateAgingBucket_buckets (status : DebtStatus) (dueAt now : Int) :
    (status = DebtStatus.paid ∨ status = DebtStatus.cancelled →
      calculateAgingBucket status dueAt now = AgingBucket.current) ∧
    (status ≠ DebtStatus.paid → status ≠ DebtStatus.cancelled →
      ((Int.fdiv (now - dueAt) msPerDay < 0 →
         calculateAgingBucket status dueAt now = AgingBucket.current) ∧
       (0 ≤ Int.fdiv (now - dueAt) msPerDay → Int.fdiv (now - dueAt) msPerDay ≤ 30 →
         calculateAgingBucket status dueAt now = AgingBucket.days0to30) ∧
       (31 ≤ Int.fdiv (now - dueAt) msPerDay → Int.fdiv (now - dueAt) msPerDay ≤ 60 →
         calculateAgingBucket status dueAt now = AgingBucket.days31to60) ∧
       (61 ≤ Int.fdiv (now - dueAt) msPerDay → Int.fdiv (now - dueAt) msPerDay ≤ 90 →
         calculateAgingBucket status dueAt now = AgingBucket.days61to90) ∧
       (90 < Int.fdiv (now - dueAt) msPerDay →
         calculateAgingBucket status dueAt now = AgingBucket.days90plus))) ∧
    calculateAgingBucket DebtStatus.opened (now - 45 * msPerDay) now = AgingBucket.days31to60 := by
  refine ⟨?_, ?_, ?_⟩
  · intro h
    unfold calculateAgingBucket
    simp [h]
  · intro hp hc
    have hpc : ¬ (status = DebtStatus.paid ∨ status = DebtStatus.cancelled) := by
      simp [hp, hc]
    unfold calculateAgingBucket
    refine ⟨?_, ?_, ?_, ?_, ?_⟩ <;> intros <;> simp only [hpc, if_false] <;> split_ifs <;>
      first | rfl | omega
  · have hdiv : Int.fdiv (now - (now - 45 * msPerDay)) msPerDay = 45 := by
      have h1 : now - (now - 45 * msPerDay) = 45 * msPerDay := by ring
      rw [h1]
      rw [Int.mul_fdiv_cancel]
      decide
    unfold calculateAgingBucket
    have hno : ¬ (DebtStatus.opened = DebtStatus.paid ∨ DebtStatus.opened = DebtStatus.cancelled) := by
      decide
    simp only [hno, if_false, hdiv]
    norm_num

/-- C7 witness: a concrete open debt due exactly 45 days before the clock
classifies into the 31-60 bucket, and a paid one classifies current. -/
theorem calculateAgingBucket_buckets_witness :
    calculateAgingBucket DebtStatus.opened (100 - 45 * msPerDay) 100 = AgingBucket.days31to60 ∧
    calculateAgingBucket DebtStatus.paid 0 100 = AgingBucket.current :=
  ⟨(calculateAgingBucket_buckets DebtStatus.opened 0 100).2.2,
   (calculateAgingBucket_buckets DebtStatus.paid 0 100).1 (Or.inl rfl)⟩

/-- Sum of the amounts of an applied-debts list. -/
def sumAmounts : List AppliedDebt → Money
  | [] => 0
  | a :: rest => a.amount + sumAmounts rest

/-- Snapshotting the applied entries into the payment record keeps the sum
of amounts. -/
theorem sumAmounts_snapshot (l : List AppliedDebt) :
    sumAmounts (l.map (fun a => { debtId := a.debtId, amount := a.amount })) = sumAmounts l := by
  induction l with
  | nil => rfl
  | cons a rest ih =>
      cases a
      simp [sumAmounts, ih]

/-- Loop invariant of the applied-debts loop: a successful pass returns the
accumulator plus the sum of all applied amounts. -/
theorem applyDebtsLoop_total (companyId customerId : Nat) (apps : List AppliedDebt) :
    ∀ (s : LedgerState) (t : Money) (s1 : LedgerState) (r : Money),
      applyDebtsLoop companyId customerId apps s t = Except.ok (s1, r) →
      r = t + sumAmounts apps := by
  induction apps with
  | nil =>
      intro s t s1 r h
      unfold applyDebtsLoop at h
      simp only [Except.ok.injEq, Prod.mk.injEq] at h
      simp [sumAmounts, ← h.2]
  | cons a rest ih =>
      intro s t s1 r h
      unfold applyDebtsLoop at h
      split at h
      · exact absurd h (by simp)
      · split at h
        · exact absurd h (by simp)
        · split at h
          · exact absurd h (by simp)
          · have := ih _ _ _ _ h
            rw [this]
            simp [decAdd, sumAmounts]
            ring

/-- C2: every payment produced by a successful createPayment satisfies
`amount = sum(appliedToDebts.amount) + addedToCreditBalance` exactly, hence
within the 0.01 tolerance, and the credit residue is never negative (a call
whose applied total exceeds the amount cannot succeed). -/
theorem createPayment_conservation
    (companyId customerId userId : Nat) (pd : PaymentData) (now : Int) (newId : Nat)
    (s s' : LedgerState) (p : Payment)
    (h : createPayment companyId customerId pd userId now newId s = Except.ok (s', p)) :
    p.amount = sumAmounts p.appliedToDebts + p.addedToCreditBalance ∧
    0 ≤ p.addedToCreditBalance ∧
    |p.amount - (sumAmounts p.appliedToDebts + p.addedToCreditBalance)| ≤ 1 / 100 := by
  unfold createPayment at h
  split at h
  · exact absurd h (by simp)
  · split at h
    · exact absurd h (by simp)
    · rename_i customer hcust
      split at h
      · exact absurd h (by simp)
      · rename_i s1 totApplied hloop
        split at h
        · exact absurd h (by simp)
        · rename_i hnotover
          dsimp only at h
          split at h
          · exact absurd h (by simp)
          · split at h
            · exact absurd h (by simp)
            · simp only [Except.ok.injEq, Prod.mk.injEq] at h
              obtain ⟨-, hp⟩ := h
              have htot := applyDebtsLoop_total companyId customerId pd.appliedToDebts
                s 0 s1 totApplied hloop
              have htot' : totApplied = sumAmounts pd.appliedToDebts := by
                simpa using htot
              have hle : totApplied ≤ pd.amount := by
                simpa [decIsGreaterThan] using hnotover
              subst hp
              refine ⟨?_, ?_, ?_⟩
              · simp only [sumAmounts_snapshot, decSubtract]
                rw [htot']
                ring
              · simp only [decSubtract]
                linarith
              · simp only [sumAmounts_snapshot, decSubtract]
                rw [htot']
                have hz : pd.amount -
                    (sumAmounts pd.appliedToDebts + (pd.amount - sumAmounts pd.appliedToDebts)) = 0 := by
                  ring
                rw [hz]
                norm_num

/-- Customer record after the split-payment fixture run. -/
def exSplitCustomer : Customer :=
  { id := 1, companyId := 1, name := "Acme", creditLimit := 1000,
    debtBalance := 200, creditBalance := 200, lastTransactionAt := some 7,
    version := 4, isActive := true, notes := none }

/-- Debt record after the split-payment fixture run. -/
def exSplitDebt : Debt :=
  { id := 10, companyId := 1, customerId := 1, reference := "INV-1",
    totalAmount := 500, outstandingAmount := 200, status := DebtStatus.partly,
    agingBucket := AgingBucket.current, dueAt := 86400000,
    items := [{ description := "w", quantity := 1, price := 500, total := 500 }],
    notes := none }

/-- Payment record created by the split-payment fixture run. -/
def exSplitPaymentRec : Payment :=
  { id := 77, companyId := 1, customerId := 1, amount := 500, method := "cash",
    appliedToDebts := [{ debtId := 10, amount := 300 }], addedToCreditBalance := 200,
    idempotencyKey := none, paidAt := 7, createdBy := 5, notes := none }

/-- Ledger state after the split-payment fixture run. -/
def exSplitState : LedgerState :=
  { customers := [exSplitCustomer], debts := [exSplitDebt], payments := [exSplitPaymentRec] }

/-- C2 witness: the concrete 500 payment applying 300 to the fixture debt
satisfies the conservation equation with residue 200. -/
theorem createPayment_conservation_witness :
    exSplitPaymentRec.amount =
      sumAmounts exSplitPaymentRec.appliedToDebts + exSplitPaymentRec.addedToCreditBalance ∧
    0 ≤ exSplitPaymentRec.addedToCreditBalance ∧
    |exSplitPaymentRec.amount -
      (sumAmounts exSplitPaymentRec.appliedToDebts + exSplitPaymentRec.addedToCreditBalance)| ≤ 1 / 100 :=
  createPayment_conservation 1 1 5 exSplitPayment 0 77 exState exSplitState exSplitPaymentRec
    (by with_unfolding_all rfl)

/-- Query predicate of the tenant-and-customer scoped debt lookup. -/
def debtQuery (i comp cust : Nat) (x : Debt) : Bool :=
  x.id == i && x.companyId == comp && x.customerId == cust

/-- findDebt is the first-match scan with the scoped query. -/
theorem findDebt_eq (s : LedgerState) (i comp cust : Nat) :
    findDebt s i comp cust = s.debts.find? (debtQuery i comp cust) := rfl

/-- Properties of a debt returned by the scoped lookup. -/
theorem findDebt_props {s : LedgerState} {i comp cust : Nat} {d : Debt}
    (h : findDebt s i comp cust = some d) :
    d.id = i ∧ d.companyId = comp ∧ d.customerId = cust := by
  rw [findDebt_eq] at h
  have := List.find?_some h
  simp [debtQuery] at this
  exact ⟨this.1.1, this.1.2, this.2⟩

/-- Replacing the stored debt that carries the queried id with a debt of the
same id and scope makes the scoped lookup return the replacement, provided a
debt with that id was stored. -/
theorem find_replace_same (d' : Debt) (i comp cust : Nat)
    (hid : d'.id = i) (hcomp : d'.companyId = comp) (hcust : d'.customerId = cust) :
    ∀ (l : List Debt), (∃ x ∈ l, x.id = i) →
      (l.map (fun x => if x.id == d'.id then d' else x)).find? (debtQuery i comp cust) =
        some d' := by
  intro l
  induction l with
  | nil => simp
  | cons x rest ih =>
      intro hex
      by_cases hx : x.id = i
      · have hrepl : (if x.id == d'.id then d' else x) = d' := by
          simp [hx, hid]
        have hpred : debtQuery i comp cust d' = true := by
          simp [debtQuery, hid, hcomp, hcust]
        simp only [List.map_cons, List.find?_cons, hrepl, hpred]
      · have hrepl : (if x.id == d'.id then d' else x) = x := by
          simp [hid, hx]
        have hpred : debtQuery i comp cust x = false := by
          simp [debtQuery, hx]
        have hex' : ∃ y ∈ rest, y.id = i := by
          obtain ⟨y, hy, hyid⟩ := hex
          rcases List.mem_cons.mp hy with h | h
          · exact absurd (h ▸ hyid) hx
          · exact ⟨y, h, hyid⟩
        simp only [List.map_cons, List.find?_cons, hrepl, hpred]
        exact ih hex'

/-- Replacing a stored debt whose id differs from the queried id leaves the
scoped lookup unchanged. -/
theorem find_replace_other (d' : Debt) (i comp cust : Nat) (hne : i ≠ d'.id) :
    ∀ (l : List Debt),
      (l.map (fun x => if x.id == d'.id then d' else x)).find? (debtQuery i comp cust) =
        l.find? (debtQuery i comp cust) := by
  intro l
  induction l with
  | nil => simp
  | cons x rest ih =>
      by_cases hx : x.id = d'.id
      · have hrepl : (if x.id == d'.id then d' else x) = d' := by
          simp [hx]
        have hpred : debtQuery i comp cust d' = false := by
          simp [debtQuery]
          intro h
          exact absurd h.symm hne
        have hpredx : debtQuery i comp cust x = false := by
          simp [debtQuery]
          intro h
          exact absurd (hx ▸ h).symm hne
        simp only [List.map_cons, List.find?_cons, hrepl, hpred, hpredx]
        exact ih
      · have hrepl : (if x.id == d'.id then d' else x) = x := by
          simp [hx]
        rcases Bool.eq_false_or_eq_true (debtQuery i comp cust x) with hp | hp
        · simp only [List.map_cons, List.find?_cons, hrepl, hp, if_true]
        · simp only [List.map_cons, List.find?_cons, hrepl, hp, Bool.false_eq_true, if_false]
          exact ih

/-- State-level version of find_replace_same. -/
theorem findDebt_saveDebt_same {s : LedgerState} {d : Debt} (d' : Debt) {i comp cust : Nat}
    (hpre : findDebt s i comp cust = some d)
    (hid : d'.id = d.id) (hcomp : d'.companyId = comp) (hcust : d'.customerId = cust) :
    findDebt (saveDebt s d') i comp cust = some d' := by
  obtain ⟨hdi, -, -⟩ := findDebt_props hpre
  have hmem := List.mem_of_find?_eq_some hpre
  rw [findDebt_eq]
  show (s.debts.map (fun x => if x.id == d'.id then d' else x)).find? (debtQuery i comp cust) = some d'
  exact find_replace_same d' i comp cust (hid.trans hdi) hcomp hcust s.debts ⟨d, hmem, hdi⟩

/-- State-level version of find_replace_other. -/
theorem findDebt_saveDebt_other {s : LedgerState} (d' : Debt) {i : Nat} (comp cust : Nat)
    (hne : i ≠ d'.id) :
    findDebt (saveDebt s d') i comp cust = findDebt s i comp cust := by
  rw [findDebt_eq, findDebt_eq]
  exact find_replace_other d' i comp cust hne s.debts

/-- Status recomputation never touches the identifying or amount fields. -/
theorem updateStatus_fields (d : Debt) :
    d.updateStatus.id = d.id ∧ d.updateStatus.companyId = d.companyId ∧
    d.updateStatus.customerId = d.customerId ∧
    d.updateStatus.outstandingAmount = d.outstandingAmount ∧
    d.updateStatus.totalAmount = d.totalAmount := by
  unfold Debt.updateStatus
  split_ifs <;> simp

/-- Over-application detection in the applied-debts loop: when every entry
references a stored debt of the right scope and some entry applies more than
the outstanding amount its debt shows to the loop, the loop fails with a
ValidationError. -/
theorem applyDebtsLoop_overapplication (companyId customerId : Nat) (apps : List AppliedDebt) :
    ∀ (s : LedgerState) (t : Money),
      (∀ a ∈ apps, (findDebt s a.debtId companyId customerId).isSome) →
      (∃ a ∈ apps, ∃ y, findDebt s a.debtId companyId customerId = some y ∧
        y.outstandingAmount < a.amount) →
      ∃ msg, applyDebtsLoop companyId customerId apps s t =
        Except.error (LedgerError.validationError msg) := by
  induction apps with
  | nil =>
      intro s t _ hover
      simp at hover
  | cons a0 rest ih =>
      intro s t hfound hover
      unfold applyDebtsLoop
      by_cases hpos : decIsPositive a0.amount
      · rw [if_neg (by simp [hpos])]
        have hf0 : (findDebt s a0.debtId companyId customerId).isSome :=
          hfound a0 (List.mem_cons_self a0 rest)
        obtain ⟨d, hd⟩ := Option.isSome_iff_exists.mp hf0
        rw [hd]
        dsimp only
        by_cases hover0 : decIsGreaterThan a0.amount d.outstandingAmount
        · rw [if_pos hover0]
          exact ⟨_, rfl⟩
        · rw [if_neg hover0]
          have hle : a0.amount ≤ d.outstandingAmount := by
            simpa [decIsGreaterThan] using hover0
          have h0le : 0 ≤ a0.amount := by
            simpa [decIsPositive] using hpos
          obtain ⟨hdi, hdcomp, hdcust⟩ := findDebt_props hd
          set dmod : Debt := { d with outstandingAmount := decSubtract d.outstandingAmount a0.amount }
            with hdmod
          obtain ⟨hid', hcomp', hcust', hout', -⟩ := updateStatus_fields dmod
          have hfound' : ∀ a ∈ rest, (findDebt (saveDebt s dmod.updateStatus) a.debtId
              companyId customerId).isSome := by
            intro a ha
            by_cases heq : a.debtId = dmod.updateStatus.id
            · have hsame : findDebt s a.debtId companyId customerId = some d := by
                have : a.debtId = a0.debtId := by
                  rw [heq, hid']
                  exact hdi
                rw [this, hd]
              rw [findDebt_saveDebt_same dmod.updateStatus hsame (by rw [hid']) (by rw [hcomp']; exact hdcomp) (by rw [hcust']; exact hdcust)]
              rfl
            · rw [findDebt_saveDebt_other dmod.updateStatus companyId customerId heq]
              exact hfound a (List.mem_cons_of_mem a0 ha)
          have hover' : ∃ a ∈ rest, ∃ y, findDebt (saveDebt s dmod.updateStatus) a.debtId
              companyId customerId = some y ∧ y.outstandingAmount < a.amount := by
            obtain ⟨a, ha, y, hy, hlt⟩ := hover
            rcases List.mem_cons.mp ha with rfl | ha'
            · rw [hd] at hy
              cases hy
              exact absurd hlt (not_lt.mpr hle)
            · by_cases heq : a.debtId = dmod.updateStatus.id
              · have hyd : y = d := by
                  have hq : a.debtId = a0.debtId := by
                    rw [heq, hid']
                    exact hdi
                  rw [hq, hd] at hy
                  cases hy
                  rfl
                refine ⟨a, ha', dmod.updateStatus, ?_, ?_⟩
                · exact findDebt_saveDebt_same dmod.updateStatus
                    (by rw [heq, hid', hdi, hd]) (by rw [hid']) (by rw [hcomp']; exact hdcomp)
                    (by rw [hcust']; exact hdcust)
                · rw [hout']
                  simp only [hdmod, decSubtract]
                  subst hyd
                  linarith
              · refine ⟨a, ha', y, ?_, hlt⟩
                rw [findDebt_saveDebt_other dmod.updateStatus companyId customerId heq]
                exact hy
          exact ih (saveDebt s dmod.updateStatus) (decAdd t a0.amount) hfound' hover'
      · rw [if_pos (by simp [hpos])]
        exact ⟨_, rfl⟩

/-- C1: a createPayment call in which some applied entry exceeds its debt's
current outstanding amount fails with a ValidationError (given the customer
and every referenced debt exist in scope), and the aborted transaction
leaves the whole ledger state unchanged, including debts mutated by earlier
entries of the list. -/
theorem createPayment_overapplication_atomic
    (companyId customerId userId : Nat) (pd : PaymentData) (now : Int) (newId : Nat)
    (s : LedgerState)
    (hcust : (findCustomer s customerId companyId).isSome)
    (hfound : ∀ a ∈ pd.appliedToDebts, (findDebt s a.debtId companyId customerId).isSome)
    (hover : ∃ a ∈ pd.appliedToDebts, ∃ y,
      findDebt s a.debtId companyId customerId = some y ∧ y.outstandingAmount < a.amount) :
    (∃ msg, createPayment companyId customerId pd userId now newId s =
      Except.error (LedgerError.validationError msg)) ∧
    (runCreatePayment companyId customerId pd userId now newId s).fst = s := by
  have hmain : ∃ msg, createPayment companyId customerId pd userId now newId s =
      Except.error (LedgerError.validationError msg) := by
    unfold createPayment
    by_cases hp : decIsPositive pd.amount
    · rw [if_neg (by simp [hp])]
      obtain ⟨c, hc⟩ := Option.isSome_iff_exists.mp hcust
      rw [hc]
      dsimp only
      obtain ⟨msg, hmsg⟩ := applyDebtsLoop_overapplication companyId customerId
        pd.appliedToDebts s 0 hfound hover
      rw [hmsg]
      exact ⟨msg, rfl⟩
    · rw [if_pos (by simp [hp])]
      exact ⟨_, rfl⟩
  refine ⟨hmain, ?_⟩
  obtain ⟨msg, hmsg⟩ := hmain
  unfold runCreatePayment
  rw [hmsg]

/-- C1 witness: applying 600 against the fixture debt whose outstanding is
500 fails with a ValidationError and leaves the state untouched. -/
theorem createPayment_overapplication_atomic_witness :
    (∃ msg, createPayment 1 1 exOverPayment 5 0 77 exState =
      Except.error (LedgerError.validationError msg)) ∧
    (runCreatePayment 1 1 exOverPayment 5 0 77 exState).fst = exState :=
  createPayment_overapplication_atomic 1 1 5 exOverPayment 0 77 exState
    (by decide)
    (by decide)
    ⟨{ debtId := 10, amount := 600 }, by decide, exDebt, by rfl, by decide⟩


/-- Query predicate of the tenant-scoped customer lookup. -/
def customerQuery (i comp : Nat) (c : Customer) : Bool :=
  c.id == i && c.companyId == comp

/-- findCustomer is the first-match scan with the scoped query. -/
theorem findCustomer_eq (s : LedgerState) (i comp : Nat) :
    findCustomer s i comp = s.customers.find? (customerQuery i comp) := rfl

/-- Properties of a customer returned by the scoped lookup. -/
theorem findCustomer_props {s : LedgerState} {i comp : Nat} {c : Customer}
    (h : findCustomer s i comp = some c) : c.id = i ∧ c.companyId = comp := by
  rw [findCustomer_eq] at h
  have := List.find?_some h
  simpa [customerQuery] using this

/-- Replacing the stored customer carrying the queried id with one of the
same id and tenant makes the scoped lookup return the replacement. -/
theorem cust_replace_same (c' : Customer) (i comp : Nat)
    (hid : c'.id = i) (hcomp : c'.companyId = comp) :
    ∀ (l : List Customer), (∃ x ∈ l, x.id = i) →
      (l.map (fun x => if x.id == c'.id then c' else x)).find? (customerQuery i comp) =
        some c' := by
  intro l
  induction l with
  | nil => simp
  | cons x rest ih =>
      intro hex
      by_cases hx : x.id = i
      · have hrepl : (if x.id == c'.id then c' else x) = c' := by
          simp [hx, hid]
        have hpred : customerQuery i comp c' = true := by
          simp [customerQuery, hid, hcomp]
        simp only [List.map_cons, List.find?_cons, hrepl, hpred]
      · have hrepl : (if x.id == c'.id then c' else x) = x := by
          simp [hid, hx]
        have hpred : customerQuery i comp x = false := by
          simp [customerQuery, hx]
        have hex' : ∃ y ∈ rest, y.id = i := by
          obtain ⟨y, hy, hyid⟩ := hex
          rcases List.mem_cons.mp hy with h | h
          · exact absurd (h ▸ hyid) hx
          · exact ⟨y, h, hyid⟩
        simp only [List.map_cons, List.find?_cons, hrepl, hpred]
        exact ih hex'

/-- State-level version of cust_replace_same. -/
theorem findCustomer_saveCustomer_same {s : LedgerState} {c : Customer} (c' : Customer)
    {i comp : Nat} (hpre : findCustomer s i comp = some c)
    (hid : c'.id = c.id) (hcomp : c'.companyId = comp) :
    findCustomer (saveCustomer s c') i comp = some c' := by
  obtain ⟨hci, -⟩ := findCustomer_props hpre
  have hmem := List.mem_of_find?_eq_some hpre
  rw [findCustomer_eq]
  show (s.customers.map (fun x => if x.id == c'.id then c' else x)).find?
    (customerQuery i comp) = some c'
  exact cust_replace_same c' i comp (hid.trans hci) hcomp s.customers ⟨c, hmem, hci⟩

/-- Debt document built by createDebt before insertion. -/
def newDebtRecord (companyId : Nat) (dd : DebtData) (now : Int) (newId : Nat) : Debt :=
  { id := newId, companyId := companyId, customerId := dd.customerId,
    reference := dd.reference, totalAmount := dd.totalAmount,
    outstandingAmount := dd.totalAmount, status := DebtStatus.opened,
    agingBucket := calculateAgingBucket DebtStatus.opened dd.dueAt now,
    dueAt := dd.dueAt, items := computeItemTotals dd.items, notes := dd.notes }

/-- State with the new debt appended to the collection. -/
def withNewDebt (s : LedgerState) (d : Debt) : LedgerState :=
  { s with debts := s.debts ++ [d] }

/-- Customer after createDebt credits the new total to the balance. -/
def debtCredited (c : Customer) (dd : DebtData) (now : Int) : Customer :=
  { c with
    debtBalance := decAdd c.debtBalance dd.totalAmount,
    lastTransactionAt := some now,
    version := c.version + 1 }

/-- C5: with the basic field validation passing and the customer present,
createDebt fails UnprocessableEntity and mutates nothing exactly when
debtBalance + totalAmount strictly exceeds creditLimit; at or below the
limit it succeeds and the stored debtBalance becomes
debtBalance + totalAmount, equalling creditLimit in the boundary case. -/
theorem createDebt_credit_limit
    (companyId userId : Nat) (dd : DebtData) (now : Int) (newId : Nat) (s : LedgerState)
    (c : Customer)
    (hval : debtDataValid dd = true)
    (hc : findCustomer s dd.customerId companyId = some c) :
    (c.creditLimit < c.debtBalance + dd.totalAmount →
      (∃ msg, createDebt companyId dd userId now newId s =
        Except.error (LedgerError.unprocessableEntityError msg)) ∧
      (runCreateDebt companyId dd userId now newId s).fst = s) ∧
    (c.debtBalance + dd.totalAmount ≤ c.creditLimit →
      ∃ s' d, createDebt companyId dd userId now newId s = Except.ok (s', d) ∧
        (findCustomer s' dd.customerId companyId).map Customer.debtBalance =
          some (c.debtBalance + dd.totalAmount) ∧
        (c.debtBalance + dd.totalAmount = c.creditLimit →
          (findCustomer s' dd.customerId companyId).map Customer.debtBalance =
            some c.creditLimit)) := by
  constructor
  · intro hover
    have hreject : ¬ c.canAcceptDebt dd.totalAmount = true := by
      simp [Customer.canAcceptDebt]
      exact hover
    have herr : createDebt companyId dd userId now newId s =
        Except.error (LedgerError.unprocessableEntityError "Customer credit limit exceeded") := by
      unfold createDebt
      rw [if_neg (by simp [hval])]
      rw [hc]
      dsimp only
      rw [if_pos hreject]
    refine ⟨⟨_, herr⟩, ?_⟩
    unfold runCreateDebt
    rw [herr]
  · intro hok
    have haccept : c.canAcceptDebt dd.totalAmount = true := by
      simp [Customer.canAcceptDebt]
      exact hok
    obtain ⟨hci, hccomp⟩ := findCustomer_props hc
    have hcall : createDebt companyId dd userId now newId s =
        Except.ok (saveCustomer (withNewDebt s (newDebtRecord companyId dd now newId))
          (debtCredited c dd now), newDebtRecord companyId dd now newId) := by
      unfold createDebt
      rw [if_neg (by simp [hval])]
      rw [hc]
      dsimp only
      rw [if_neg (by simp [haccept])]
      rfl
    have hpre : findCustomer (withNewDebt s (newDebtRecord companyId dd now newId))
        dd.customerId companyId = some c := hc
    have hfind : findCustomer (saveCustomer (withNewDebt s (newDebtRecord companyId dd now newId))
        (debtCredited c dd now)) dd.customerId companyId = some (debtCredited c dd now) :=
      findCustomer_saveCustomer_same _ hpre rfl hccomp
    refine ⟨_, _, hcall, ?_, ?_⟩
    · rw [hfind]
      simp [debtCredited, decAdd]
    · intro hbd
      rw [hfind]
      simp [debtCredited, decAdd, hbd]

/-- Customer fixture at debt balance 900 against a 1000 credit limit. -/
def exBoundaryCustomer : Customer :=
  { id := 3, companyId := 1, name := "Edge", creditLimit := 1000,
    debtBalance := 900, creditBalance := 0, lastTransactionAt := none,
    version := 0, isActive := true, notes := none }

/-- State holding only the boundary customer. -/
def exBoundaryState : LedgerState :=
  { customers := [exBoundaryCustomer], debts := [], payments := [] }

/-- Debt request for 150 against the boundary customer. -/
def exDebt150 : DebtData :=
  { customerId := 3, reference := "B-150", totalAmount := 150, dueAt := 5,
    items := [{ description := "x", quantity := 1, price := 150, total := 0 }],
    notes := none }

/-- Debt request for 100 against the boundary customer. -/
def exDebt100 : DebtData :=
  { customerId := 3, reference := "B-100", totalAmount := 100, dueAt := 5,
    items := [{ description := "x", quantity := 1, price := 100, total := 0 }],
    notes := none }

/-- C5 witness: at creditLimit 1000 and debtBalance 900, a 150 debt is
rejected UnprocessableEntity leaving the state intact, and a 100 debt is
accepted with the stored balance landing exactly on the limit. -/
theorem createDebt_credit_limit_witness :
    ((∃ msg, createDebt 1 exDebt150 5 7 21 exBoundaryState =
        Except.error (LedgerError.unprocessableEntityError msg)) ∧
      (runCreateDebt 1 exDebt150 5 7 21 exBoundaryState).fst = exBoundaryState) ∧
    (∃ s' d, createDebt 1 exDebt100 5 7 22 exBoundaryState = Except.ok (s', d) ∧
      (findCustomer s' exDebt100.customerId 1).map Customer.debtBalance =
        some (exBoundaryCustomer.debtBalance + exDebt100.totalAmount) ∧
      (exBoundaryCustomer.debtBalance + exDebt100.totalAmount = exBoundaryCustomer.creditLimit →
        (findCustomer s' exDebt100.customerId 1).map Customer.debtBalance =
          some exBoundaryCustomer.creditLimit)) :=
  ⟨(createDebt_credit_limit 1 5 exDebt150 7 21 exBoundaryState exBoundaryCustomer
      (by decide) rfl).1 (by norm_num [exBoundaryCustomer, exDebt150]),
   (createDebt_credit_limit 1 5 exDebt100 7 22 exBoundaryState exBoundaryCustomer
      (by decide) rfl).2 (by norm_num [exBoundaryCustomer, exDebt100])⟩

/-- Inactive customer fixture (soft-deleted: isActive = false). -/
def exInactiveCustomer : Customer :=
  { id := 2, companyId := 1, name := "Ghost", creditLimit := 1000,
    debtBalance := 0, creditBalance := 0, lastTransactionAt := none,
    version := 0, isActive := false, notes := none }

/-- State holding only the inactive customer. -/
def exInactiveState : LedgerState :=
  { customers := [exInactiveCustomer], debts := [], payments := [] }

/-- Valid debt request addressed to the inactive customer. -/
def exInactiveDebtData : DebtData :=
  { customerId := 2, reference := "INV-9", totalAmount := 100, dueAt := 5,
    items := [{ description := "x", quantity := 1, price := 100, total := 0 }],
    notes := none }

/-- C10 counterexample: the fixture customer is inactive, yet createDebt
succeeds and stores a debt for it, so inactivity does not produce NotFound. -/
theorem createDebt_inactive_counterexample :
    exInactiveCustomer.isActive = false ∧
    ((createDebt 1 exInactiveDebtData 5 7 20 exInactiveState).toOption.map
      (fun r => r.fst.debts.length)) = some 1 := by
  constructor
  · rfl
  · with_unfolding_all rfl

/-- C10 (amended): createDebt fails NotFound, mutating nothing, exactly when
the customer scoped by (companyId, customerId) is absent; a present customer
never yields NotFound whether active or not, since isActive is not
consulted. -/
theorem createDebt_notfound
    (companyId userId : Nat) (dd : DebtData) (now : Int) (newId : Nat) (s : LedgerState)
    (hval : debtDataValid dd = true) :
    (findCustomer s dd.customerId companyId = none →
      createDebt companyId dd userId now newId s =
        Except.error (LedgerError.notFoundError "Customer") ∧
      (runCreateDebt companyId dd userId now newId s).fst = s) ∧
    (∀ c, findCustomer s dd.customerId companyId = some c →
      createDebt companyId dd userId now newId s ≠
        Except.error (LedgerError.notFoundError "Customer")) := by
  constructor
  · intro hnone
    have herr : createDebt companyId dd userId now newId s =
        Except.error (LedgerError.notFoundError "Customer") := by
      unfold createDebt
      rw [if_neg (by simp [hval])]
      rw [hnone]
    refine ⟨herr, ?_⟩
    unfold runCreateDebt
    rw [herr]
  · intro c hc
    unfold createDebt
    rw [if_neg (by simp [hval])]
    rw [hc]
    dsimp only
    by_cases hacc : c.canAcceptDebt dd.totalAmount
    · rw [if_neg (by simp [hacc])]
      intro h
      exact Except.noConfusion h
    · rw [if_pos (by simp [hacc])]
      intro h
      cases h

/-- C10 witness for the amended claim: a request to a missing customer id
fails NotFound leaving the state intact, and the same request addressed to
the stored inactive customer does not fail NotFound. -/
theorem createDebt_notfound_witness :
    (createDebt 1 exInactiveDebtData 5 7 20 exBoundaryState =
        Except.error (LedgerError.notFoundError "Customer") ∧
      (runCreateDebt 1 exInactiveDebtData 5 7 20 exBoundaryState).fst = exBoundaryState) ∧
    createDebt 1 exInactiveDebtData 5 7 20 exInactiveState ≠
      Except.error (LedgerError.notFoundError "Customer") :=
  ⟨(createDebt_notfound 1 5 exInactiveDebtData 7 20 exBoundaryState (by decide)).1 rfl,
   (createDebt_notfound 1 5 exInactiveDebtData 7 20 exInactiveState (by decide)).2
     exInactiveCustomer rfl⟩

/-- Sum of outstanding amounts over a list of debts. -/
def sumOutstanding : List Debt → Money
  | [] => 0
  | d :: rest => d.outstandingAmount + sumOutstanding rest

/-- Ledger invariant claimed by the spec: every customer's debtBalance
equals the sum of outstandingAmount over that customer's non-cancelled
debts. -/
def debtBalanceInvariant (s : LedgerState) : Bool :=
  s.customers.all (fun c => decEquals c.debtBalance
    (sumOutstanding (s.debts.filter (fun d =>
      d.customerId == c.id && d.companyId == c.companyId &&
        d.status != DebtStatus.cancelled))))

/-- Debt fixture that is already cancelled (outstanding still equals total,
as cancellation never changes amounts). -/
def exCancelledDebt : Debt :=
  { id := 30, companyId := 1, customerId := 4, reference := "C-1",
    totalAmount := 100, outstandingAmount := 100, status := DebtStatus.cancelled,
    agingBucket := AgingBucket.current, dueAt := 5,
    items := [{ description := "x", quantity := 1, price := 100, total := 100 }],
    notes := none }

/-- Owner of the cancelled debt; its balance already excludes the debt. -/
def exCancelCustomer : Customer :=
  { id := 4, companyId := 1, name := "Dup", creditLimit := 1000,
    debtBalance := 0, creditBalance := 0, lastTransactionAt := none,
    version := 2, isActive := true, notes := none }

/-- State in which the balance invariant holds and one debt is cancelled. -/
def exCancelState : LedgerState :=
  { customers := [exCancelCustomer], debts := [exCancelledDebt], payments := [] }

/-- C3 failing input: cancelDebt on the already-cancelled fixture debt
passes the outstanding-equals-total guard, succeeds, and decrements the
owner's debtBalance to -100, destroying the invariant that held before. -/
theorem cancelDebt_double_cancel_bug :
    debtBalanceInvariant exCancelState = true ∧
    exCancelledDebt.status = DebtStatus.cancelled ∧
    ((cancelDebt 1 30 5 exCancelState).toOption.map
      (fun r => debtBalanceInvariant r.fst)) = some false ∧
    ((cancelDebt 1 30 5 exCancelState).toOption.map
      (fun r => (findCustomer r.fst 4 1).map Customer.debtBalance)) = some (some (-100)) := by
  refine ⟨?_, rfl, ?_, ?_⟩ <;> with_unfolding_all rfl

/-- Payment fixture stored with no applied debts. -/
def exStoredPayment : Payment :=
  { id := 50, companyId := 1, customerId := 1, amount := 50, method := "cash",
    appliedToDebts := [], addedToCreditBalance := 0, idempotencyKey := none,
    paidAt := 3, createdBy := 5, notes := none }

/-- State holding only the stored payment. -/
def exPaymentState : LedgerState :=
  { customers := [], debts := [], payments := [exStoredPayment] }

/-- Sync changeset rewriting the stored payment's amount, with an arbitrary
client version. -/
def exPaymentChangeset : Changeset :=
  { entity := "Payment", entityId := 50, version := 999,
    data := { name := none, creditLimit := none, debtBalance := none,
              outstandingAmount := none, amount := some 75, notes := none } }

/-- C8 counterexample: pushChanges with a Payment changeset rewrites the
stored payment's amount from 50 to 75 and reports it applied, so a created
Payment is not immutable under the exposed operations. -/
theorem payment_immutability_counterexample :
    exStoredPayment.amount = 50 ∧
    ((pushChanges 1 [exPaymentChangeset] exPaymentState).toOption.map
      (fun r => r.fst.payments.map Payment.amount)) = some [75] := by
  constructor <;> with_unfolding_all rfl

/-- C8 (amended): no payment-service operation updates a stored Payment, but
Sync pushChanges with entity 'Payment' does: the Payment schema has no
version path, so the version check is skipped whatever clientVersion says,
and the changeset data is assigned onto the record and saved (whenever the
schema sum hook accepts the result). -/
theorem pushChanges_payment_mutable
    (companyId : Nat) (cs : Changeset) (s : LedgerState) (p : Payment)
    (he : cs.entity = "Payment")
    (hp : findPayment s cs.entityId companyId = some p)
    (hv : paymentValidateHook (assignPayment p cs.data) = true) :
    pushOne companyId cs s =
      (savePayment s (assignPayment p cs.data),
       PushOutcome.applied { entityId := cs.entityId, entity := cs.entity,
                             newVersion := none }) := by
  have hfe : findEntityDoc s cs.entity cs.entityId companyId =
      some (ServerDoc.paymentDoc p) := by
    unfold findEntityDoc
    rw [he]
    simp [hp]
  unfold pushOne
  rw [if_pos (by rw [he]; rfl)]
  rw [hfe]
  dsimp only [ServerDoc.version]
  unfold applyChangeset
  dsimp only
  rw [if_neg (by simp [hv])]

/-- C8 witness for the amended claim: the fixture changeset flows through
pushOne into a saved, modified payment reported as applied. -/
theorem pushChanges_payment_mutable_witness :
    pushOne 1 exPaymentChangeset exPaymentState =
      (savePayment exPaymentState (assignPayment exStoredPayment exPaymentChangeset.data),
       PushOutcome.applied { entityId := 50, entity := "Payment", newVersion := none }) :=
  pushChanges_payment_mutable 1 exPaymentChangeset exPaymentState exStoredPayment
    rfl rfl (by with_unfolding_all rfl)

/-- C9: a changeset whose target document exists and carries a defined
version different from the client's is answered by a conflict entry holding
the server's version and a snapshot of the server document; that changeset
leaves the state untouched and the rest of the batch is processed exactly as
it would be alone. -/
theorem pushChanges_version_conflict
    (companyId : Nat) (cs : Changeset) (rest : List Changeset) (s : LedgerState)
    (doc : ServerDoc) (v : Nat)
    (hfind : findEntityDoc s cs.entity cs.entityId companyId = some doc)
    (hv : doc.version = some v)
    (hne : v ≠ cs.version) :
    pushOne companyId cs s = (s, PushOutcome.conflicted (mismatchConflict cs v doc)) ∧
    pushChangesLoop companyId (cs :: rest) s =
      ((pushChangesLoop companyId rest s).fst,
       PushOutcome.conflicted (mismatchConflict cs v doc) ::
         (pushChangesLoop companyId rest s).snd) := by
  have hent : (cs.entity == "Customer" || cs.entity == "Debt" || cs.entity == "Payment") = true := by
    by_cases h1 : cs.entity == "Customer"
    · simp [h1]
    · by_cases h2 : cs.entity == "Debt"
      · simp [h1, h2]
      · by_cases h3 : cs.entity == "Payment"
        · simp [h1, h2, h3]
        · exfalso
          unfold findEntityDoc at hfind
          rw [if_neg (by simp [h1]), if_neg (by simp [h2]), if_neg (by simp [h3])] at hfind
          exact Option.noConfusion hfind
  have hone : pushOne companyId cs s = (s, PushOutcome.conflicted (mismatchConflict cs v doc)) := by
    unfold pushOne
    rw [if_pos hent, hfind]
    dsimp only
    rw [hv]
    dsimp only
    rw [if_pos hne]
  refine ⟨hone, ?_⟩
  show (let step := pushOne companyId cs s
        let tail := pushChangesLoop companyId rest step.fst
        (tail.fst, step.snd :: tail.snd)) = _
  rw [hone]

/-- Sync changeset carrying a stale client version 3 for a customer whose
server version is 4. -/
def exConflictChangeset : Changeset :=
  { entity := "Customer", entityId := 1, version := 3,
    data := { name := none, creditLimit := none, debtBalance := some 0,
              outstandingAmount := none, amount := none, notes := none } }

/-- C9 witness: against the post-split state whose customer holds version 4,
the stale changeset yields a conflict entry with serverVersion 4 and the
server snapshot, leaving the state unchanged with the batch continuing. -/
theorem pushChanges_version_conflict_witness :
    pushOne 1 exConflictChangeset exSplitState =
      (exSplitState, PushOutcome.conflicted
        (mismatchConflict exConflictChangeset 4 (ServerDoc.customerDoc exSplitCustomer))) ∧
    pushChangesLoop 1 [exConflictChangeset] exSplitState =
      ((pushChangesLoop 1 [] exSplitState).fst,
       PushOutcome.conflicted
         (mismatchConflict exConflictChangeset 4 (ServerDoc.customerDoc exSplitCustomer)) ::
           (pushChangesLoop 1 [] exSplitState).snd) :=
  pushChanges_version_conflict 1 exConflictChangeset [] exSplitState
    (ServerDoc.customerDoc exSplitCustomer) 4 (by with_unfolding_all rfl) rfl (by decide)

/-- A freshly stored cache entry answers its key before the expiry instant. -/
theorem cacheGet_cacheSet (cache : List (String × CacheEntry)) (key : String)
    (e : CacheEntry) (t : Int) (ht : t < e.expiresAt) :
    cacheGet (cacheSet cache key e) key t = some e := by
  unfold cacheGet cacheSet
  simp [List.find?_cons, ht]

/-- C4: idempotent replay — when a first createPayment call under a valid
key runs on a cache miss and answers 2xx (the only responses the gate
stores), any second call bearing the same key before the 24-hour expiry,
with the same or any other body, tenant or actor, returns exactly the first
response and leaves the whole application state (ledger, cache and id
counter) unchanged: the single first execution is the only mutation. -/
theorem idempotent_replay
    (now t2 : Int) (key : String)
    (companyId customerId userId companyId2 customerId2 userId2 : Nat)
    (pd1 pd2 : PaymentData) (st st1 : AppState) (r1 : HttpResponse)
    (hkey : isValidIdempotencyKey key = true)
    (hmiss : cacheGet st.cache (redisKeyOf key) now = none)
    (h1 : handleCreatePayment now key companyId customerId userId pd1 st = (st1, r1))
    (h2xx : 200 ≤ r1.status ∧ r1.status < 300)
    (hexp : t2 < now + idempotencyTtlMs) :
    handleCreatePayment t2 key companyId2 customerId2 userId2 pd2 st1 = (st1, r1) := by
  unfold handleCreatePayment at h1
  rw [if_neg (by simp [hkey]), hmiss] at h1
  dsimp only at h1
  rcases hrun : runCreatePayment companyId customerId
      { pd1 with idempotencyKey := some key } userId now st.nextPaymentId st.ledger
    with ⟨led, res⟩
  rw [hrun] at h1
  cases res with
  | error e =>
      dsimp only at h1
      have hr : r1 = errorResponse e := by
        have := congrArg Prod.snd h1
        simpa using this.symm
      have : ¬ (200 ≤ (errorResponse e).status ∧ (errorResponse e).status < 300) := by
        cases e <;> simp [errorResponse, errorStatus]
      exact absurd (hr ▸ h2xx) this
  | ok p =>
      dsimp only at h1
      rw [if_pos (by norm_num)] at h1
      have hst : st1 =
          { ledger := led,
            cache := cacheSet st.cache (redisKeyOf key)
              { expiresAt := now + idempotencyTtlMs,
                resp := { status := 201, body := RespBody.successBody p } },
            nextPaymentId := st.nextPaymentId + 1 } := by
        have := congrArg Prod.fst h1
        simpa using this.symm
      have hr : r1 = { status := 201, body := RespBody.successBody p } := by
        have := congrArg Prod.snd h1
        simpa using this.symm
      unfold handleCreatePayment
      rw [if_neg (by simp [hkey])]
      have hhit : cacheGet st1.cache (redisKeyOf key) t2 =
          some { expiresAt := now + idempotencyTtlMs,
                 resp := { status := 201, body := RespBody.successBody p } } := by
        rw [hst]
        exact cacheGet_cacheSet _ _ _ _ hexp
      rw [hhit]
      dsimp only
      rw [← hr]

/-- Valid UUID idempotency key fixture. -/
def exUuid : String := "123e4567-e89b-12d3-a456-426614174000"

/-- Application state before the first keyed payment call. -/
def exAppState : AppState :=
  { ledger := exState, cache := [], nextPaymentId := 77 }

/-- Payment stored by the first keyed call (split payment plus the key). -/
def exSplitPaymentKeyed : Payment :=
  { id := 77, companyId := 1, customerId := 1, amount := 500, method := "cash",
    appliedToDebts := [{ debtId := 10, amount := 300 }], addedToCreditBalance := 200,
    idempotencyKey := some exUuid, paidAt := 7, createdBy := 5, notes := none }

/-- Ledger after the first keyed call. -/
def exSplitStateKeyed : LedgerState :=
  { customers := [exSplitCustomer], debts := [exSplitDebt],
    payments := [exSplitPaymentKeyed] }

/-- Response of the first keyed call. -/
def exFirstResponse : HttpResponse :=
  { status := 201, body := RespBody.successBody exSplitPaymentKeyed }

/-- Application state after the first keyed call: mutated ledger, cached
response, advanced id counter. -/
def exAppState1 : AppState :=
  { ledger := exSplitStateKeyed,
    cache := [(redisKeyOf exUuid,
      { expiresAt := 0 + idempotencyTtlMs, resp := exFirstResponse })],
    nextPaymentId := 78 }

/-- C4 witness: replaying the key at a later clock with a different body,
tenant and actor returns the first response verbatim and leaves the state
exactly as the single first execution left it. -/
theorem idempotent_replay_witness :
    handleCreatePayment 5000 exUuid 9 9 9 exOverPayment exAppState1 =
      (exAppState1, exFirstResponse) :=
  idempotent_replay 0 5000 exUuid 1 1 5 9 9 9 exSplitPayment exOverPayment
    exAppState exAppState1 exFirstResponse
    (by with_unfolding_all rfl)
    rfl
    (by with_unfolding_all rfl)
    (by decide)
    (by decide)
